import Mathlib

/-!
Verification of the MCP-Playground repository (src/client.py, src/weather.py)
against its natural-language specification.

The development shallowly embeds the two Python source files:

* `src/weather.py`: the tool server.  Network fetches (`make_nws_request`)
  are modelled as `Option JSON` parameters (`none` is the `None` the Python
  function returns on timeout, non-2xx status or an unparseable body; `some v`
  is the decoded JSON payload).  Python runtime exceptions raised by the tool
  bodies (KeyError, TypeError, AttributeError) are modelled with `Except PyErr`.

* `src/client.py`: the chat orchestrator.  The OpenAI chat API and the MCP
  session are modelled as an `Oracle`; `process_query` returns a `QueryTrace`
  recording every model call it issued (with the messages passed), the final
  conversation, the side effects executed by `eval` while parsing tool
  arguments, and the returned output string.
-/

/-- A decoded JSON value, as produced by Python's `response.json()`.
Numbers are modelled as integers (no claim depends on float arithmetic);
objects are association lists with distinct keys. -/
inductive JSON where
  | null
  | bool (b : Bool)
  | num (n : Int)
  | str (s : String)
  | arr (xs : List JSON)
  | obj (fields : List (String × JSON))

/-- Python runtime exceptions that the tool bodies in `weather.py` can raise. -/
inductive PyErr where
  | keyError (k : String)
  | typeError
  | attributeError
deriving DecidableEq

/-- First-match association lookup, modelling Python dict access on the
association lists used for JSON objects and the capital tables. -/
def assocFind {α : Type} (k : String) : List (String × α) → Option α
  | [] => none
  | (a, v) :: t => if a == k then some v else assocFind k t

/-- Python truthiness of a JSON value (`not data` in the source):
`None`, `False`, `0`, `""`, `[]` and `{}` are falsy. -/
def pyFalsy : JSON → Bool
  | .null => true
  | .bool b => !b
  | .num n => n == 0
  | .str s => s.isEmpty
  | .arr xs => xs.isEmpty
  | .obj fs => fs.isEmpty

/-- Python `d[k]` for a string key `k`: dict lookup (KeyError when the key is
missing), TypeError on every non-dict value. -/
def pyIndex (d : JSON) (k : String) : Except PyErr JSON :=
  match d with
  | .obj fs =>
    match assocFind k fs with
    | some v => Except.ok v
    | none => Except.error (PyErr.keyError k)
  | _ => Except.error PyErr.typeError

/-- Python `d.get(k, default)`: only dicts have a `get` method
(AttributeError otherwise). -/
def pyGet (d : JSON) (k : String) (default : JSON) : Except PyErr JSON :=
  match d with
  | .obj fs =>
    match assocFind k fs with
    | some v => Except.ok v
    | none => Except.ok default
  | _ => Except.error PyErr.attributeError

/-- Python `k == e` for a string `k` and an arbitrary value `e`:
a string only equals a string. -/
def strEqJSON (k : String) : JSON → Bool
  | .str s => k == s
  | _ => false

/-- Python `k in d` for a string `k`: key membership for dicts, element
membership for lists, substring test for strings, TypeError otherwise. -/
def pyContains (k : String) (d : JSON) : Except PyErr Bool :=
  match d with
  | .obj fs => Except.ok (fs.any (fun p => p.1 == k))
  | .arr xs => Except.ok (xs.any (strEqJSON k))
  | .str s => Except.ok (decide (List.IsInfix k.data s.data))
  | _ => Except.error PyErr.typeError

/-- Python iteration `for x in d`: lists yield their elements, strings their
characters, dicts their keys; other values raise TypeError. -/
def pyIterate : JSON → Except PyErr (List JSON)
  | .arr xs => Except.ok xs
  | .str s => Except.ok (s.data.map (fun c => JSON.str (String.mk [c])))
  | .obj fs => Except.ok (fs.map (fun p => JSON.str p.1))
  | _ => Except.error PyErr.typeError

/-- Python `d[:5]` followed by iteration (the `periods[:5]` loop in
`get_forecast`): slicing a list or string takes the first five items;
slicing any other value raises TypeError. -/
def pyIterSlice5 : JSON → Except PyErr (List JSON)
  | .arr xs => Except.ok (xs.take 5)
  | .str s => Except.ok ((s.data.take 5).map (fun c => JSON.str (String.mk [c])))
  | _ => Except.error PyErr.typeError

mutual

/-- Python `repr` of a JSON value, used by `str` on containers. -/
def pyRepr : JSON → String
  | .null => "None"
  | .bool true => "True"
  | .bool false => "False"
  | .num n => toString n
  | .str s => "\x27" ++ s ++ "\x27"
  | .arr xs => "[" ++ String.intercalate ", " (pyReprList xs) ++ "]"
  | .obj fs => "\x7b" ++ String.intercalate ", " (pyReprFields fs) ++ "\x7d"

/-- `repr` of the elements of a list. -/
def pyReprList : List JSON → List String
  | [] => []
  | v :: vs => pyRepr v :: pyReprList vs

/-- `repr` of the entries of a dict. -/
def pyReprFields : List (String × JSON) → List String
  | [] => []
  | (k, v) :: fs => ("\x27" ++ k ++ "\x27: " ++ pyRepr v) :: pyReprFields fs

end

/-- Python `str` of a JSON value, as interpolated by an f-string. -/
def pyStr : JSON → String
  | .str s => s
  | v => pyRepr v

/-- Whitespace as recognised by Python's `str.strip` with no argument
(restricted to the ASCII whitespace characters). -/
def pyIsSpace (c : Char) : Bool :=
  c == ' ' || c == '\t' || c == '\n' || c == '\r' || c == '\x0b' || c == '\x0c'

/-- Python `s.strip()`: drop leading and trailing whitespace. -/
def pyStrip (s : String) : String :=
  String.mk (((s.data.dropWhile pyIsSpace).reverse.dropWhile pyIsSpace).reverse)

/-- Lower/upper pairs of the accented letters occurring in the capital
tables, extending the ASCII case maps to the repertoire the source uses. -/
def accentPairs : List (Char × Char) :=
  [('á', 'Á'), ('ã', 'Ã'), ('ç', 'Ç'), ('é', 'É'), ('ê', 'Ê'),
   ('í', 'Í'), ('ó', 'Ó'), ('ô', 'Ô'), ('ú', 'Ú')]

/-- Uppercase a single character (Python `str.upper`, per character). -/
def pyToUpper (c : Char) : Char :=
  match accentPairs.find? (fun p => p.1 == c) with
  | some p => p.2
  | none => c.toUpper

/-- Lowercase a single character (Python `str.lower`, per character). -/
def pyToLower (c : Char) : Char :=
  match accentPairs.find? (fun p => p.2 == c) with
  | some p => p.1
  | none => c.toLower

/-- Whether a character is cased, for the word boundaries of `str.title`. -/
def pyIsCased (c : Char) : Bool :=
  c.isAlpha || accentPairs.any (fun p => p.1 == c || p.2 == c)

/-- Python `s.upper()`. -/
def pyUpper (s : String) : String :=
  String.mk (s.data.map pyToUpper)

/-- Character loop of Python `s.title()`: a cased character is uppercased
when the previous character is not cased and lowercased otherwise;
uncased characters pass through unchanged. -/
def titleChars : List Char → Bool → List Char
  | [], _ => []
  | c :: rest, prevCased =>
    if pyIsCased c then
      (if prevCased then pyToLower c else pyToUpper c) :: titleChars rest true
    else
      c :: titleChars rest false

/-- Python `s.title()`. -/
def pyTitle (s : String) : String :=
  String.mk (titleChars s.data false)

/-- Python `sorted` on a list of strings: stable ascending sort under the
code-point lexicographic order. -/
def pySorted (l : List String) : List String :=
  List.insertionSort (fun a b => a ≤ b) l

/-- `SOUTH_AMERICAN_CAPITALS` from `weather.py`. -/
def SOUTH_AMERICAN_CAPITALS : List (String × String) :=
  [("Argentina", "Buenos Aires"),
   ("Bolivia", "La Paz"),
   ("Brasil", "Brasília"),
   ("Chile", "Santiago"),
   ("Colômbia", "Bogotá"),
   ("Equador", "Quito"),
   ("Guiana", "Georgetown"),
   ("Guiana Francesa", "Caiena"),
   ("Paraguai", "Assunção"),
   ("Peru", "Lima"),
   ("Suriname", "Paramaribo"),
   ("Uruguai", "Montevidéu"),
   ("Venezuela", "Caracas")]

/-- `US_STATE_CAPITALS` from `weather.py`. -/
def US_STATE_CAPITALS : List (String × String) :=
  [("AL", "Montgomery"), ("AK", "Juneau"), ("AZ", "Phoenix"), ("AR", "Little Rock"),
   ("CA", "Sacramento"), ("CO", "Denver"), ("CT", "Hartford"), ("DE", "Dover"),
   ("FL", "Tallahassee"), ("GA", "Atlanta"), ("HI", "Honolulu"), ("ID", "Boise"),
   ("IL", "Springfield"), ("IN", "Indianapolis"), ("IA", "Des Moines"), ("KS", "Topeka"),
   ("KY", "Frankfort"), ("LA", "Baton Rouge"), ("ME", "Augusta"), ("MD", "Annapolis"),
   ("MA", "Boston"), ("MI", "Lansing"), ("MN", "Saint Paul"), ("MS", "Jackson"),
   ("MO", "Jefferson City"), ("MT", "Helena"), ("NE", "Lincoln"), ("NV", "Carson City"),
   ("NH", "Concord"), ("NJ", "Trenton"), ("NM", "Santa Fe"), ("NY", "Albany"),
   ("NC", "Raleigh"), ("ND", "Bismarck"), ("OH", "Columbus"), ("OK", "Oklahoma City"),
   ("OR", "Salem"), ("PA", "Harrisburg"), ("RI", "Providence"), ("SC", "Columbia"),
   ("SD", "Pierre"), ("TN", "Nashville"), ("TX", "Austin"), ("UT", "Salt Lake City"),
   ("VT", "Montpelier"), ("VA", "Richmond"), ("WA", "Olympia"), ("WV", "Charleston"),
   ("WI", "Madison"), ("WY", "Cheyenne")]

/-- The keys of a capital table, in table order (Python `dict.keys()`). -/
def dictKeys (fs : List (String × String)) : List String :=
  fs.map Prod.fst

/-- `get_south_american_capital` from `weather.py` (lines 126-137). -/
def get_south_american_capital (country : String) : String :=
  let c := pyTitle (pyStrip country)
  match assocFind c SOUTH_AMERICAN_CAPITALS with
  | none =>
    "País não encontrado. Países disponíveis: "
      ++ String.intercalate ", " (pySorted (dictKeys SOUTH_AMERICAN_CAPITALS))
  | some cap => "A capital de " ++ c ++ " é " ++ cap

/-- `get_us_state_capital` from `weather.py` (lines 139-150). -/
def get_us_state_capital (state : String) : String :=
  let st := pyUpper (pyStrip state)
  match assocFind st US_STATE_CAPITALS with
  | none =>
    "Estado não encontrado. Estados disponíveis: "
      ++ String.intercalate ", " (pySorted (dictKeys US_STATE_CAPITALS))
  | some cap => "A capital de " ++ st ++ " é " ++ cap

/-- `format_alert` from `weather.py` (lines 60-69): can raise KeyError on a
feature without `properties` and AttributeError when `properties` is not a
dict. -/
def format_alert (feature : JSON) : Except PyErr String := do
  let props ← pyIndex feature "properties"
  let ev ← pyGet props "event" (JSON.str "Unknown")
  let area ← pyGet props "areaDesc" (JSON.str "Unknown")
  let sev ← pyGet props "severity" (JSON.str "Unknown")
  let desc ← pyGet props "description" (JSON.str "No description available")
  let instr ← pyGet props "instruction" (JSON.str "No specific instructions provided")
  return "\nEvent: " ++ pyStr ev
    ++ "\nArea: " ++ pyStr area
    ++ "\nSeverity: " ++ pyStr sev
    ++ "\nDescription: " ++ pyStr desc
    ++ "\nInstructions: " ++ pyStr instr
    ++ "\n"

/-- The list comprehension of `get_alerts` (line 87): format the features in
order, raising the first exception encountered. -/
def formatAlerts : List JSON → Except PyErr (List String)
  | [] => Except.ok []
  | f :: rest =>
    match format_alert f with
    | Except.error e => Except.error e
    | Except.ok a =>
      match formatAlerts rest with
      | Except.error e => Except.error e
      | Except.ok rs => Except.ok (a :: rs)

/-- `get_alerts` from `weather.py` (lines 71-88).  The fetch outcome of
`make_nws_request` is the parameter: `none` when the request failed. -/
def get_alerts (data : Option JSON) : Except PyErr String :=
  match data with
  | none => Except.ok "Unable to fetch alerts or no alerts found."
  | some d =>
    if pyFalsy d then Except.ok "Unable to fetch alerts or no alerts found."
    else
      match pyContains "features" d with
      | Except.error e => Except.error e
      | Except.ok false => Except.ok "Unable to fetch alerts or no alerts found."
      | Except.ok true =>
        match pyIndex d "features" with
        | Except.error e => Except.error e
        | Except.ok fv =>
          if pyFalsy fv then Except.ok "No active alerts for this state."
          else
            match pyIterate fv with
            | Except.error e => Except.error e
            | Except.ok fl =>
              match formatAlerts fl with
              | Except.error e => Except.error e
              | Except.ok alerts => Except.ok (String.intercalate "\n---\n" alerts)

/-- The f-string body of the `get_forecast` loop (lines 116-121): can raise
on a period that is not a dict or lacks one of the keys. -/
def formatPeriod (period : JSON) : Except PyErr String := do
  let nm ← pyIndex period "name"
  let temp ← pyIndex period "temperature"
  let unit ← pyIndex period "temperatureUnit"
  let wind ← pyIndex period "windSpeed"
  let dir ← pyIndex period "windDirection"
  let det ← pyIndex period "detailedForecast"
  return "\n" ++ pyStr nm
    ++ ":\nTemperature: " ++ pyStr temp ++ "°" ++ pyStr unit
    ++ "\nWind: " ++ pyStr wind ++ " " ++ pyStr dir
    ++ "\nForecast: " ++ pyStr det
    ++ "\n"

/-- The accumulation loop of `get_forecast` (lines 114-122): format the
given periods in order, raising the first exception encountered. -/
def formatPeriods : List JSON → Except PyErr (List String)
  | [] => Except.ok []
  | p :: rest =>
    match formatPeriod p with
    | Except.error e => Except.error e
    | Except.ok f =>
      match formatPeriods rest with
      | Except.error e => Except.error e
      | Except.ok rs => Except.ok (f :: rs)

/-- `get_forecast` from `weather.py` (lines 90-124).  The outcomes of the two
`make_nws_request` fetches (points, then forecast) are the parameters; the
forecast URL extracted from the points payload only feeds the second fetch,
which is already given as `forecast_data`. -/
def get_forecast (points_data : Option JSON) (forecast_data : Option JSON) :
    Except PyErr String :=
  match points_data with
  | none => Except.ok "Unable to fetch forecast data for this location."
  | some pd =>
    if pyFalsy pd then Except.ok "Unable to fetch forecast data for this location."
    else
      match pyIndex pd "properties" with
      | Except.error e => Except.error e
      | Except.ok props =>
        match pyIndex props "forecast" with
        | Except.error e => Except.error e
        | Except.ok _forecast_url =>
          match forecast_data with
          | none => Except.ok "Unable to fetch detailed forecast."
          | some fd =>
            if pyFalsy fd then Except.ok "Unable to fetch detailed forecast."
            else
              match pyIndex fd "properties" with
              | Except.error e => Except.error e
              | Except.ok fprops =>
                match pyIndex fprops "periods" with
                | Except.error e => Except.error e
                | Except.ok periods =>
                  match pyIterSlice5 periods with
                  | Except.error e => Except.error e
                  | Except.ok ps =>
                    match formatPeriods ps with
                    | Except.error e => Except.error e
                    | Except.ok forecasts =>
                      Except.ok (String.intercalate "\n---\n" forecasts)

/-- The serialized argument payload of a tool call
(`tool_call.function.arguments` in `client.py`).  A payload is either the
text of a plain Python/JSON literal, denoting a structured value, or the
text of an expression whose evaluation performs a side effect before
producing a value. -/
inductive ArgPayload where
  | literal (v : JSON)
  | effectful (effect : String) (v : JSON)

/-- The outcome of evaluating an argument payload: the resulting value and
the side effects that were executed while producing it. -/
structure EvalResult where
  value : JSON
  executedEffects : List String

/-- Python's `eval` applied to the payload text (`client.py` line 100):
it evaluates the expression, so an effectful payload has its side effect
executed. -/
def pyEval : ArgPayload → EvalResult
  | .literal v => ⟨v, []⟩
  | .effectful e v => ⟨v, [e]⟩

/-- One tool call requested by the model
(`id`, `function.name`, `function.arguments`). -/
structure ToolCall where
  id : String
  name : String
  arguments : ArgPayload

/-- One assistant response from the chat API: its text content and the
requested tool calls (the empty list models a `None`/empty `tool_calls`). -/
structure AssistantMsg where
  content : String
  tool_calls : List ToolCall

/-- An entry of the `messages` list built by `process_query`. -/
inductive Message where
  | user (content : String)
  | assistant (m : AssistantMsg)
  | tool (tool_call_id : String) (name : String) (content : String)

/-- The external collaborators of `process_query`: the chat-completion API
(`respond`, a function of the messages passed) and the MCP session's
`call_tool` (a function of the tool name and the parsed arguments, returning
the result content). -/
structure Oracle where
  respond : List Message → AssistantMsg
  call_tool : String → JSON → String

/-- What one run of `process_query` did: every model call issued (model name
and the messages passed, in order), the final conversation, the side effects
executed by `eval` while parsing tool arguments, and the returned string. -/
structure QueryTrace where
  modelCalls : List (String × List Message)
  conversation : List Message
  effects : List String
  output : List String

/-- The state threaded through the tool-call loop of `process_query`
(lines 98-127): the `messages` list, the `final_text` list, the record of
model calls issued so far and of side effects executed so far. -/
structure LoopState where
  messages : List Message
  final_text : List String
  modelCalls : List (String × List Message)
  effects : List String

/-- The tool-result message appended for one tool call (lines 106-111):
it carries the call's id, the tool name and the content returned by
`session.call_tool` on the `eval`-parsed arguments. -/
def toolMsg (o : Oracle) (tc : ToolCall) : Message :=
  Message.tool tc.id tc.name (o.call_tool tc.name (pyEval tc.arguments).value)

/-- One iteration of the `for tool_call in assistant_message.tool_calls`
loop (lines 98-127): `eval` the arguments, call the tool, append the trace
line and the tool-result message, then issue a further model call and append
its text to `final_text`. -/
def stepToolCall (o : Oracle) (s : LoopState) (tc : ToolCall) : LoopState :=
  let er := pyEval tc.arguments
  let res := o.call_tool tc.name er.value
  let ft := s.final_text
    ++ ["[Calling tool " ++ tc.name ++ " with args " ++ pyStr er.value ++ "]"]
  let ms := s.messages ++ [Message.tool tc.id tc.name res]
  let mc := s.modelCalls ++ [("gpt-4-turbo-preview", ms)]
  let r := o.respond ms
  ⟨ms, ft ++ [r.content], mc, s.effects ++ er.executedEffects⟩

/-- `MCPClient.process_query` from `client.py` (lines 62-131).  The returned
string is `String.intercalate "\n" trace.output`, mirroring
`"\n".join(final_text)`; the trace also records the model calls, the final
`messages` list and the effects executed while parsing arguments. -/
def process_query (o : Oracle) (query : String) : QueryTrace :=
  let m0 := [Message.user query]
  let am := o.respond m0
  let m1 := m0 ++ [Message.assistant am]
  if am.tool_calls.isEmpty then
    ⟨[("gpt-4o-mini", m0)], m1, [], [am.content]⟩
  else
    let s := List.foldl (stepToolCall o) ⟨m1, [], [("gpt-4o-mini", m0)], []⟩ am.tool_calls
    ⟨s.modelCalls, s.messages, s.effects, s.final_text⟩

/-- The string `process_query` returns: `"\n".join(final_text)` (line 131). -/
def queryOutput (o : Oracle) (query : String) : String :=
  String.intercalate "\n" (process_query o query).output

/-- Whether a message is a tool-result message. -/
def isToolMsg : Message → Bool
  | .tool _ _ _ => true
  | _ => false

/-- The identifiers of all tool calls requested by assistant messages of a
conversation, in order. -/
def toolCallIdsOf (ms : List Message) : List String :=
  ms.foldr
    (fun m acc =>
      match m with
      | .assistant am => am.tool_calls.map ToolCall.id ++ acc
      | _ => acc)
    []

/-- How many tool-result messages of a conversation answer the identifier
`i`. -/
def toolResultCount (ms : List Message) (i : String) : Nat :=
  (ms.filter
    (fun m =>
      match m with
      | .tool tid _ _ => tid == i
      | _ => false)).length

/-- The invariant of spec §3: every tool call emitted by an assistant
message of the conversation is answered by exactly one tool-result message
with a matching identifier. -/
def allAnswered (ms : List Message) : Bool :=
  (toolCallIdsOf ms).all (fun i => toolResultCount ms i == 1)

/-- A first sample tool call, with a dict-literal argument payload. -/
def tcA : ToolCall := ⟨"id1", "t1", ArgPayload.literal (JSON.obj [("state", JSON.str "CA")])⟩

/-- A second sample tool call, with an empty-dict argument payload. -/
def tcB : ToolCall := ⟨"id2", "t2", ArgPayload.literal (JSON.obj [])⟩

/-- An oracle whose first response requests the two tool calls `tcA`, `tcB`
and whose follow-up responses are plain texts `r1`, `r2`. -/
def oTwo : Oracle :=
  ⟨fun ms =>
      if ms.length == 1 then ⟨"", [tcA, tcB]⟩
      else if ms.length == 3 then ⟨"r1", []⟩
      else ⟨"r2", []⟩,
   fun n _ => "res-" ++ n⟩

/-- An oracle whose response requests no tool calls. -/
def oZero : Oracle := ⟨fun _ => ⟨"hello", []⟩, fun _ _ => ""⟩

/-- An oracle whose first response carries a crafted argument payload:
an expression with a side effect rather than a plain literal. -/
def oInject : Oracle :=
  ⟨fun ms =>
      if ms.length == 1 then
        ⟨"", [⟨"c1", "t1",
          ArgPayload.effectful "__import__(\x27os\x27).system(\x27touch pwned\x27)"
            (JSON.obj [])⟩]⟩
      else ⟨"done", []⟩,
   fun _ _ => "ok"⟩

/-- A well-formed points payload: the shape `get_forecast` expects from the
first fetch. -/
def goodPointsPayload : JSON :=
  JSON.obj [("properties", JSON.obj [("forecast", JSON.str "https://api.weather.gov/gridpoints/x")])]

/-- A well-formed forecast period with the given name. -/
def samplePeriod (nm : String) : JSON :=
  JSON.obj [("name", JSON.str nm), ("temperature", JSON.num 70),
    ("temperatureUnit", JSON.str "F"), ("windSpeed", JSON.str "5 mph"),
    ("windDirection", JSON.str "NW"), ("detailedForecast", JSON.str "Sunny")]

/-- Six well-formed forecast periods. -/
def samplePeriods : List JSON :=
  [samplePeriod "P1", samplePeriod "P2", samplePeriod "P3",
   samplePeriod "P4", samplePeriod "P5", samplePeriod "P6"]

/-- The formatting of the first five sample periods. -/
def sampleFormatted : List String :=
  match formatPeriods (samplePeriods.take 5) with
  | Except.ok l => l
  | Except.error _ => []

theorem intercalate_singleton (s a : String) : String.intercalate s [a] = a := rfl

theorem foldl_step_messages (o : Oracle) (tcs : List ToolCall) :
    ∀ s : LoopState, (List.foldl (stepToolCall o) s tcs).messages
      = s.messages ++ tcs.map (toolMsg o) := by
  induction tcs with
  | nil => intro s; simp
  | cons tc rest ih =>
    intro s
    simp only [List.foldl_cons, List.map_cons, ih, stepToolCall]
    simp [toolMsg, List.append_assoc]

theorem formatPeriods_length :
    ∀ (l : List JSON) (fs : List String), formatPeriods l = Except.ok fs → fs.length = l.length := by
  intro l
  induction l with
  | nil => intro fs h; cases h; rfl
  | cons p rest ih =>
    intro fs h
    unfold formatPeriods at h
    cases hp : formatPeriod p with
    | error e => rw [hp] at h; cases h
    | ok f =>
      rw [hp] at h
      cases hr : formatPeriods rest with
      | error e => rw [hr] at h; cases h
      | ok rs => rw [hr] at h; cases h; simp [ih rs hr]

theorem any_key_eq_isSome (k : String) (fs : List (String × JSON)) :
    (fs.any (fun p => p.1 == k)) = (assocFind k fs).isSome := by
  induction fs with
  | nil => rfl
  | cons a t ih =>
    obtain ⟨a1, a2⟩ := a
    by_cases ha : (a1 == k) = true
    · simp [assocFind, ha]
    · simp only [List.any_cons] at *
      simp [assocFind, ha, ih]

/-- Claim C1: the claim says `process_query` parses the serialized argument
payload with a strict structured-data parser that never evaluates the payload
as executable code.  The source (`client.py` line 100) parses with Python's
`eval`: on a crafted payload whose text is an expression with a side effect,
the side effect is executed during parsing, as this run of the embedded
orchestrator records. -/
theorem c1_eval_executes_crafted_payload :
    (process_query oInject "q").effects
      = ["__import__(\x27os\x27).system(\x27touch pwned\x27)"] := rfl

/-- Claim C2: the claim says that for a response requesting tool calls,
`process_query` issues exactly one further model call, after the whole batch
is answered, and appends exactly that one response's text.  In the source the
further model call sits inside the tool-call loop (lines 113-127): for a
first response with two tool calls the code issues three model calls in
total (two further ones) and the output interleaves trace lines with the two
responses' texts instead of ending in a single final text. -/
theorem c2_further_model_call_per_tool_call :
    (process_query oTwo "q").modelCalls.length = 3
    ∧ (process_query oTwo "q").output
        = ["[Calling tool t1 with args \x7b\x27state\x27: \x27CA\x27\x7d]", "r1",
           "[Calling tool t2 with args \x7b\x7d]", "r2"] := ⟨rfl, rfl⟩

/-- Claim C3: the claim says that whenever a model call is issued, every
tool call emitted by an earlier assistant message has been answered by
exactly one matching tool-result message.  In the source the further model
call is issued inside the tool-call loop, so with two requested tool calls
the second model call (index 1 of the recorded calls) is issued while the
second tool call is still unanswered: the invariant holds at the first and
third calls but fails at the second. -/
theorem c3_unanswered_tool_call_at_model_call :
    (process_query oTwo "q").modelCalls.map (fun c => allAnswered c.2)
      = [true, false, true] := rfl

/-- Claim C4: for every query whose model response requests at least one
tool call, the tool-result messages of the final conversation are exactly
one per requested call, in the order the model requested them, each carrying
the identifier of the call it answers (and the content the session returned
for it). -/
theorem c4_tool_result_messages (o : Oracle) (q : String)
    (h : (o.respond [Message.user q]).tool_calls.isEmpty = false) :
    (process_query o q).conversation.filter isToolMsg
      = ((o.respond [Message.user q]).tool_calls).map (toolMsg o) := by
  unfold process_query
  simp only [h, Bool.false_eq_true, if_false]
  simp only [foldl_step_messages, List.filter_append, List.filter_map]
  have hall : List.filter (isToolMsg ∘ toolMsg o) (o.respond [Message.user q]).tool_calls
      = (o.respond [Message.user q]).tool_calls :=
    List.filter_eq_self.2 (fun a _ => rfl)
  rw [hall]
  simp [isToolMsg]

/-- Witness for C4 at a two-tool-call oracle. -/
theorem c4_witness :
    (process_query oTwo "q").conversation.filter isToolMsg
      = ((oTwo.respond [Message.user "q"]).tool_calls).map (toolMsg oTwo) :=
  c4_tool_result_messages oTwo "q" rfl

/-- Claim C5: for every query whose model response requests zero tool
calls, `process_query` returns exactly that response's text content. -/
theorem c5_zero_tool_calls_returns_text (o : Oracle) (q : String)
    (h : (o.respond [Message.user q]).tool_calls = []) :
    queryOutput o q = (o.respond [Message.user q]).content := by
  unfold queryOutput process_query
  simp [h, intercalate_singleton]

/-- Witness for C5 at a zero-tool-call oracle. -/
theorem c5_witness :
    queryOutput oZero "hi" = (oZero.respond [Message.user "hi"]).content :=
  c5_zero_tool_calls_returns_text oZero "hi" rfl

/-- Claim C6 counterexample: the claim says the network tools never raise,
for any fetch outcome including a malformed response payload.  A points
payload that is fetched and decoded successfully but lacks the `properties`
key makes `get_forecast` raise a KeyError (line 106 of `weather.py`) instead
of returning an "unable to fetch" text. -/
theorem c6_counterexample_forecast_raises :
    get_forecast (some (JSON.obj [("ok", JSON.bool true)])) none
      = Except.error (PyErr.keyError "properties") := rfl

/-- Claim C6 (amended): when a fetch fails to produce a payload — timeout,
non-2xx status, or a body that fails JSON decoding, i.e. `make_nws_request`
returns `None` — the tools return their descriptive "unable to fetch" text
and do not raise; this covers either of `get_forecast`'s two fetches. -/
theorem c6_amended_fetch_failure_text :
    get_alerts none = Except.ok "Unable to fetch alerts or no alerts found."
    ∧ (∀ fd : Option JSON,
        get_forecast none fd = Except.ok "Unable to fetch forecast data for this location.")
    ∧ get_forecast (some goodPointsPayload) none
        = Except.ok "Unable to fetch detailed forecast." :=
  ⟨rfl, fun _ => rfl, rfl⟩

/-- Claim C7: on a lookup miss, both lookup tools return an error text that
ends with the comma-joined key list, and that key list is sorted and is a
permutation of the full key set of the table. -/
theorem c7_miss_lists_sorted_keys :
    (∀ s : String, assocFind (pyUpper (pyStrip s)) US_STATE_CAPITALS = none →
        get_us_state_capital s
          = "Estado não encontrado. Estados disponíveis: "
              ++ String.intercalate ", " (pySorted (dictKeys US_STATE_CAPITALS)))
    ∧ List.Sorted (fun a b : String => a ≤ b) (pySorted (dictKeys US_STATE_CAPITALS))
    ∧ List.Perm (pySorted (dictKeys US_STATE_CAPITALS)) (dictKeys US_STATE_CAPITALS)
    ∧ (∀ s : String, assocFind (pyTitle (pyStrip s)) SOUTH_AMERICAN_CAPITALS = none →
        get_south_american_capital s
          = "País não encontrado. Países disponíveis: "
              ++ String.intercalate ", " (pySorted (dictKeys SOUTH_AMERICAN_CAPITALS)))
    ∧ List.Sorted (fun a b : String => a ≤ b) (pySorted (dictKeys SOUTH_AMERICAN_CAPITALS))
    ∧ List.Perm (pySorted (dictKeys SOUTH_AMERICAN_CAPITALS)) (dictKeys SOUTH_AMERICAN_CAPITALS) := by
  refine ⟨fun s h => ?_, ?_, ?_, fun s h => ?_, ?_, ?_⟩
  · simp only [get_us_state_capital, h]
  · show List.Sorted (fun a b : String => a ≤ b)
      (List.insertionSort (fun a b : String => a ≤ b) (dictKeys US_STATE_CAPITALS))
    exact List.sorted_insertionSort _ _
  · show List.Perm (List.insertionSort (fun a b : String => a ≤ b) (dictKeys US_STATE_CAPITALS))
      (dictKeys US_STATE_CAPITALS)
    exact List.perm_insertionSort _ _
  · simp only [get_south_american_capital, h]
  · show List.Sorted (fun a b : String => a ≤ b)
      (List.insertionSort (fun a b : String => a ≤ b) (dictKeys SOUTH_AMERICAN_CAPITALS))
    exact List.sorted_insertionSort _ _
  · show List.Perm
      (List.insertionSort (fun a b : String => a ≤ b) (dictKeys SOUTH_AMERICAN_CAPITALS))
      (dictKeys SOUTH_AMERICAN_CAPITALS)
    exact List.perm_insertionSort _ _

/-- Witness for C7 at two inputs whose normalized forms miss the tables. -/
theorem c7_witness :
    get_us_state_capital "ZZ"
      = "Estado não encontrado. Estados disponíveis: "
          ++ String.intercalate ", " (pySorted (dictKeys US_STATE_CAPITALS))
    ∧ get_south_american_capital "Atlantis"
      = "País não encontrado. Países disponíveis: "
          ++ String.intercalate ", " (pySorted (dictKeys SOUTH_AMERICAN_CAPITALS)) :=
  ⟨c7_miss_lists_sorted_keys.1 "ZZ" (by decide),
   c7_miss_lists_sorted_keys.2.2.2.1 "Atlantis" (by decide)⟩

/-- Claim C8: the pure lookup tools are insensitive to surrounding
whitespace and letter case — two inputs that agree after trimming and case
canonicalization (uppercasing for state codes, titlecasing for country
names) get identical results; in particular `get_us_state_capital " ca "`
equals `get_us_state_capital "CA"`. -/
theorem c8_normalized_inputs_agree :
    (∀ a b : String, pyUpper (pyStrip a) = pyUpper (pyStrip b) →
        get_us_state_capital a = get_us_state_capital b)
    ∧ (∀ a b : String, pyTitle (pyStrip a) = pyTitle (pyStrip b) →
        get_south_american_capital a = get_south_american_capital b)
    ∧ get_us_state_capital " ca " = get_us_state_capital "CA" := by
  refine ⟨fun a b h => ?_, fun a b h => ?_, rfl⟩
  · simp only [get_us_state_capital, h]
  · simp only [get_south_american_capital, h]

/-- Witness for C8 at concrete whitespace/case variants. -/
theorem c8_witness :
    get_us_state_capital " tx " = get_us_state_capital "TX"
    ∧ get_south_american_capital " peru " = get_south_american_capital "Peru" :=
  ⟨c8_normalized_inputs_agree.1 " tx " "TX" rfl,
   c8_normalized_inputs_agree.2.1 " peru " "Peru" rfl⟩

/-- Claim C9: for a successfully fetched, well-formed forecast payload,
`get_forecast` formats exactly the first at-most-five periods, in the order
of the source's `periods` list, and joins them with the separator. -/
theorem c9_forecast_at_most_five_in_order (u : String) (ps : List JSON) (fs : List String)
    (h : formatPeriods (ps.take 5) = Except.ok fs) :
    get_forecast (some (JSON.obj [("properties", JSON.obj [("forecast", JSON.str u)])]))
        (some (JSON.obj [("properties", JSON.obj [("periods", JSON.arr ps)])]))
      = Except.ok (String.intercalate "\n---\n" fs)
    ∧ fs.length ≤ 5 := by
  constructor
  · simp [get_forecast, pyFalsy, pyIndex, assocFind, pyIterSlice5, h]
  · rw [formatPeriods_length (ps.take 5) fs h]
    exact List.length_take_le 5 ps

/-- Witness for C9 at a six-period payload. -/
theorem c9_witness :
    get_forecast (some (JSON.obj [("properties", JSON.obj [("forecast", JSON.str "u")])]))
        (some (JSON.obj [("properties", JSON.obj [("periods", JSON.arr samplePeriods)])]))
      = Except.ok (String.intercalate "\n---\n" sampleFormatted)
    ∧ sampleFormatted.length ≤ 5 :=
  c9_forecast_at_most_five_in_order "u" samplePeriods sampleFormatted rfl

/-- Claim C10: a successful alerts fetch whose payload binds `"features"`
to an empty list yields exactly "No active alerts for this state.", while a
missing payload or a payload without the `"features"` key yields the
distinct fetch-failure text. -/
theorem c10_empty_features_distinct_text :
    (∀ fs : List (String × JSON), assocFind "features" fs = some (JSON.arr []) →
        get_alerts (some (JSON.obj fs)) = Except.ok "No active alerts for this state.")
    ∧ get_alerts none = Except.ok "Unable to fetch alerts or no alerts found."
    ∧ (∀ fs : List (String × JSON), assocFind "features" fs = none →
        get_alerts (some (JSON.obj fs)) = Except.ok "Unable to fetch alerts or no alerts found.")
    ∧ "No active alerts for this state." ≠ "Unable to fetch alerts or no alerts found." := by
  refine ⟨?_, rfl, ?_, by decide⟩
  · intro fs h
    have hany := any_key_eq_isSome "features" fs
    rw [h] at hany
    have hne : fs.isEmpty = false := by
      cases fs with
      | nil => simp [assocFind] at h
      | cons a t => rfl
    simp [get_alerts, pyFalsy, pyContains, pyIndex, hne, hany, h]
  · intro fs h
    have hany := any_key_eq_isSome "features" fs
    rw [h] at hany
    cases hne : fs.isEmpty with
    | true => simp [get_alerts, pyFalsy, hne]
    | false => simp [get_alerts, pyFalsy, pyContains, hne, hany]

/-- Witness for C10 at a payload whose `features` list is empty. -/
theorem c10_witness :
    get_alerts (some (JSON.obj [("features", JSON.arr [])]))
      = Except.ok "No active alerts for this state." :=
  c10_empty_features_distinct_text.1 [("features", JSON.arr [])] rfl
